import Mathlib

/-!
Verification of the BoulderMove route-result normalization and aggregation
pipeline (frontend/src/App.js and the earlier variant of the same component).

The JavaScript source is shallowly embedded: JS objects become structures with
`Option` fields for possibly-absent properties, JS numbers become `ℚ`, and the
JS truthiness idioms (`x || y`, `x ?? y`, `if (!x)`) are modelled explicitly.
External collaborators (the `@mapbox/polyline` decoder and `Date` parsing) are
taken as function parameters, since the repository does not implement them.
-/

namespace BoulderMove

/-! ## Data model -/

/-- Coordinate as used by the map layer: `{ lat, lng }`. -/
structure Coordinate where
  lat : ℚ
  lng : ℚ
deriving DecidableEq, Repr

/-- Coordinate in backend shape: `{ lat, lon }` (note `lon`, not `lng`). -/
structure LatLon where
  lat : ℚ
  lon : ℚ
deriving DecidableEq, Repr

/-- Weather alert, element of `weather.custom_alerts`. `severity` is a free
string; the renderer must tolerate unrecognized values. -/
structure Alert where
  title : String
  message : String
  severity : String
deriving DecidableEq, Repr

/-- Weather snapshot attached to a response. `rain_1h`/`snow_1h` may be absent
(the renderer applies `?? 0`). -/
structure Weather where
  temp : ℚ
  feels_like : ℚ
  humidity : ℚ
  wind_speed : ℚ
  rain_1h : Option ℚ
  snow_1h : Option ℚ
  weather_main : String
  weather_desc : String
  custom_alerts : Option (List Alert)
deriving DecidableEq, Repr

/-- Nearby event. Two upstream shapes exist: the ticketing shape uses
`title`/`start_time`/`venue`, the live-feed shape uses
`name`/`date_time`/`venue_name`; all fields are optional. -/
structure Event where
  title : Option String
  name : Option String
  date_time : Option String
  start_time : Option String
  venue : Option String
  venue_name : Option String
  url : Option String
  address : Option String
  distance_from_route_m : Option ℚ
  capacity : Option Int
deriving DecidableEq, Repr

/-- The `alerts` wrapper stored on a route: `{ custom_alerts: [...] }`. -/
structure AlertsWrapper where
  custom_alerts : Option (List Alert)
deriving DecidableEq, Repr

/-- A route object as stored in the `routes` React state. Fields that some
producers leave undefined are `Option`. -/
structure RouteObj where
  summary : String
  duration_min : Option ℚ
  distance_km : Option ℚ
  polylineCoords : Option (List Coordinate)
  polyline : Option String
  start_location : Option Coordinate
  end_location : Option Coordinate
  waypoint_locations : Option (List Coordinate)
  stops : Option (List String)
  weather : Option Weather
  alerts : Option AlertsWrapper
  events_nearby : Option (List Event)
deriving DecidableEq, Repr

/-- A route object with every field absent/empty, used as a neutral sample. -/
def emptyRouteObj : RouteObj :=
  { summary := ""
    duration_min := none
    distance_km := none
    polylineCoords := none
    polyline := none
    start_location := none
    end_location := none
    waypoint_locations := none
    stops := none
    weather := none
    alerts := none
    events_nearby := some [] }

/-! ## JS truthiness helpers -/

/-- JS `a || b` on strings: yields `b` whenever `a` is absent or `""`
(the two falsy string cases); the result may itself be falsy. -/
def jsOrStr (a b : Option String) : Option String :=
  match a with
  | some s => if s = "" then b else some s
  | none => b

/-- JS `x || null` on a number: `0` is falsy, so it collapses to `null`. -/
def jsOrNullQ (x : ℚ) : Option ℚ :=
  if x = 0 then none else some x

/-! ## Directions-proxy normalization (`fetchGoogleRoute`, App.js 201-267) -/

/-- One leg of a directions candidate. `duration`/`distance` carry the
`.value` field of the corresponding JS object (seconds / metres); either
object may be absent (the code guards with `?.value`). -/
structure DirLeg where
  duration : Option ℚ
  distance : Option ℚ
deriving DecidableEq, Repr

/-- One candidate in `raw.routes`. `overview_polyline_points` is
`route.overview_polyline.points`. -/
structure DirRoute where
  summary : Option String
  legs : List DirLeg
  overview_polyline_points : String
deriving DecidableEq, Repr

/-- Raw directions-proxy response body. -/
structure DirResp where
  routes : Option (List DirRoute)
  origin_lat : ℚ
  origin_lon : ℚ
  destination_lat : ℚ
  destination_lon : ℚ
  weather : Option Weather
  events_nearby : Option (List Event)
deriving DecidableEq, Repr

/-- The per-candidate mapping inside `data.routes.map(...)` (App.js 228-260).
`const leg = route.legs[0]` throws when `legs` is empty, modelled by `none`.
`duration_min` is `leg.duration?.value / 60 || null`: an absent duration gives
`NaN || null = null`, and a present value of `0` gives `0 || null = null`
(the JS falsy-coalescing of `||`); likewise `distance_km`. -/
def mapDirRoute (decode : String → List Coordinate) (data : DirResp)
    (mode : String) (route : DirRoute) : Option RouteObj :=
  match route.legs.head? with
  | none => none
  | some leg => some
    { summary := (jsOrStr route.summary (some (mode ++ " route"))).getD ""
      duration_min :=
        match leg.duration with
        | none => none
        | some v => jsOrNullQ (v / 60)
      distance_km :=
        match leg.distance with
        | none => none
        | some v => jsOrNullQ (v / 1000)
      polylineCoords := some (decode route.overview_polyline_points)
      polyline := none
      start_location := some ⟨data.origin_lat, data.origin_lon⟩
      end_location := some ⟨data.destination_lat, data.destination_lon⟩
      waypoint_locations := none
      stops := none
      weather := data.weather
      alerts := some ⟨some ((data.weather.bind (fun w => w.custom_alerts)).getD [])⟩
      events_nearby := some (data.events_nearby.getD []) }

/-- Response handling of `fetchGoogleRoute` (App.js 201-267). The function
returns the new `routes` state given the previous one: transit mode returns
early (state kept); `!data.routes || data.routes.length === 0` clears the
state to `[]`; otherwise the candidates are mapped, and if the mapping throws
(a candidate with no legs) the exception is caught and the state is kept. -/
def fetchGoogleRoute (decode : String → List Coordinate) (mode : String)
    (data : DirResp) (prev : List RouteObj) : List RouteObj :=
  if mode = "transit" then prev
  else
    match data.routes with
    | none => []
    | some rs =>
      if rs = [] then []
      else
        match rs.mapM (mapDirRoute decode data mode) with
        | some objs => objs
        | none => prev

/-- Rendering of the rain figure (App.js 909): `route.weather.rain_1h ?? 0`.
JS `??` only treats `null`/`undefined` as absent, so a present `0` stays `0`. -/
def renderedRain (w : Weather) : ℚ :=
  w.rain_1h.getD 0

/-! ## Transit normalization (`fetchTransitRoute`, App.js 270-341) -/

/-- One transit leg of the planner response. -/
structure TransitLeg where
  route_id : Option String
  trip_id : Option String
  intermediate_stops : Option (List String)
deriving DecidableEq, Repr

/-- The `transit` sub-object of the planner response. -/
structure TransitData where
  legs : Option (List TransitLeg)
deriving DecidableEq, Repr

/-- Raw `/plan_transit_full` response body. -/
structure TransitResp where
  error : Option String
  transit : Option TransitData
  walk_to_stop : Option (List LatLon)
  walk_to_destination : Option (List LatLon)
  weather : Option Weather
  events_nearby : Option (List Event)
deriving DecidableEq, Repr

/-- Summary synthesis (App.js 306-311):
`data.transit?.legs?.length > 0 ? "Transit via " + (legs[0].route_id || legs[0].trip_id) : "Walking only"`.
An absent `trip_id` interpolates as the string `"undefined"`. -/
def transitSummary (data : TransitResp) : String :=
  match data.transit.bind (fun t => t.legs) with
  | some (l :: _) => "Transit via " ++ ((jsOrStr l.route_id l.trip_id).getD "undefined")
  | _ => "Walking only"

/-- The single route object built from a transit response (App.js 305-335). -/
def mkTransitRoute (origin destination : LatLon) (data : TransitResp) : RouteObj :=
  { summary := transitSummary data
    duration_min := none
    distance_km := none
    polylineCoords := some
      (((data.walk_to_stop.getD []).map (fun p => (⟨p.lat, p.lon⟩ : Coordinate)))
        ++ ((data.walk_to_destination.getD []).map (fun p => (⟨p.lat, p.lon⟩ : Coordinate))))
    polyline := none
    start_location := some ⟨origin.lat, origin.lon⟩
    end_location := some ⟨destination.lat, destination.lon⟩
    waypoint_locations := none
    stops := some
      (((data.transit.bind (fun t => t.legs)).getD []).flatMap
        (fun l => l.intermediate_stops.getD []))
    weather := data.weather
    alerts := some ⟨some ((data.weather.bind (fun w => w.custom_alerts)).getD [])⟩
    events_nearby := some (data.events_nearby.getD []) }

/-- Response handling of `fetchTransitRoute` (App.js 295-337). A truthy
`data.error` triggers `alert(data.error)` and an early return with the route
state already cleared — modelled as `Except.error` carrying the message shown
to the user; otherwise exactly one route object is published. -/
def fetchTransitRoute (origin destination : LatLon) (data : TransitResp) :
    Except String (List RouteObj) :=
  match data.error with
  | some e => if e = "" then .ok [mkTransitRoute origin destination data] else .error e
  | none => .ok [mkTransitRoute origin destination data]

/-! ## Alert severity resolution (RouteCard, App.js 816-825; renderAlerts 980-1014) -/

/-- Worst-case impact level (App.js 817-819): `"high"` if any alert has
severity `"high"`, else `"medium"` if any has `"medium"`, else `"low"`. -/
def impactLevel (alerts : List Alert) : String :=
  if alerts.any (fun a => a.severity == "high") then "high"
  else if alerts.any (fun a => a.severity == "medium") then "medium"
  else "low"

/-- The alert list read off a route (App.js 816):
`route.alerts?.custom_alerts || []` (an array is always truthy in JS, so only
an absent wrapper or absent list falls back to `[]`). -/
def routeAlerts (r : RouteObj) : List Alert :=
  (r.alerts.bind (fun w => w.custom_alerts)).getD []

/-- Light-mode severity colour table (App.js 943-947), a partial lookup. -/
def severityColorsLight (s : String) : Option String :=
  if s = "high" then some "#ffe5e5"
  else if s = "medium" then some "#fff5d6"
  else if s = "low" then some "#e5ffe5"
  else none

/-- Alert card background (App.js 980-983):
`severityColorsLight[a.severity] || "#f5f5f5"` — unrecognized severities fall
back to the neutral colour, so rendering is total and never crashes. -/
def alertBgLight (a : Alert) : String :=
  (severityColorsLight a.severity).getD "#f5f5f5"

/-! ## Route decoding and viewport fit (App.js 359-367, 385-391) -/

/-- Per-route displayed path (App.js 359-367): a non-empty `polylineCoords`
wins; else a truthy `polyline` string is decoded; else the path is empty. -/
def decodedRoute (decode : String → List Coordinate) (r : RouteObj) :
    List Coordinate :=
  if (r.polylineCoords.getD []).length > 0 then r.polylineCoords.getD []
  else
    match r.polyline with
    | some s => if s = "" then [] else decode s
    | none => []

/-- All displayed paths, in route order. -/
def decodedRoutes (decode : String → List Coordinate) (rs : List RouteObj) :
    List (List Coordinate) :=
  rs.map (decodedRoute decode)

/-- Axis-aligned bounding region (the state of a `LatLngBounds`). -/
structure Region where
  minLat : ℚ
  maxLat : ℚ
  minLng : ℚ
  maxLng : ℚ
deriving DecidableEq, Repr

/-- `bounds.extend(p)`: an empty bounds (`none`) becomes the single point;
otherwise the region grows to cover the point. -/
def extendBounds (b : Option Region) (c : Coordinate) : Option Region :=
  match b with
  | none => some ⟨c.lat, c.lat, c.lng, c.lng⟩
  | some r => some ⟨min r.minLat c.lat, max r.maxLat c.lat,
                    min r.minLng c.lng, max r.maxLng c.lng⟩

/-- The fit-bounds effect (App.js 385-391). It returns early — keeping the
prior viewport — only when `decodedRoutes.length === 0`; otherwise it extends
an initially empty bounds with every point of every path and calls
`fitBounds` with the result. Outer `none` = effect skipped; `some b` =
`fitBounds` invoked with bounds `b` (`b = none` meaning an empty bounds). -/
def fitViewport (paths : List (List Coordinate)) : Option (Option Region) :=
  if paths.length = 0 then none
  else some (paths.foldl (fun b path => path.foldl extendBounds b) none)

/-! ## Marker building (`buildMarkers`, App.js 370-382; labels 713-719) -/

def optToList : Option Coordinate → List Coordinate
  | some c => [c]
  | none => []

/-- `buildMarkers` (App.js 370-382): only the FIRST route contributes;
start location, then each waypoint location in order, then end location,
each only when present (an empty waypoint array is truthy and contributes
nothing). -/
def buildMarkers (routes : List RouteObj) : List Coordinate :=
  match routes with
  | [] => []
  | r :: _ =>
    optToList r.start_location ++ r.waypoint_locations.getD []
      ++ optToList r.end_location

/-- Marker label character codes (App.js 717):
`String.fromCharCode(65 + index)` for each marker position. -/
def markerLabelCodes (routes : List RouteObj) : List Nat :=
  (List.range (buildMarkers routes).length).map (fun i => 65 + i)

/-! ## Event rendering and grouping (`renderEvents`, App.js 1020-1071)

Timestamps are epoch milliseconds (`Int`). `Date` parsing
(`new Date(timeStr).getTime()`) is an external collaborator and is taken as a
`parse : String → Int` parameter; `setHours(0,0,0,0)` truncates to local
midnight, modelled with an explicit UTC-offset parameter `off`. -/

/-- Milliseconds per day. -/
def msPerDay : Int := 86400000

/-- `d.setHours(0,0,0,0)` on a time `t` (epoch ms) in a zone whose local time
is `t + off`: the result is the latest local midnight not after `t`. -/
def truncDay (off t : Int) : Int :=
  t - (t + off) % msPerDay

/-- The timestamp string the grouping loop uses (App.js 1055-1056):
`const timeStr = e.date_time || e.start_time; if (!timeStr) continue;`.
`none` means the event is skipped (both fields absent or empty). -/
def timeField (e : Event) : Option String :=
  match jsOrStr e.date_time e.start_time with
  | some s => if s = "" then none else some s
  | none => none

/-- A bucket entry `{ base: e, time }` (App.js 1065). -/
abbrev Entry := Event × Int

/-- The `groupsByDate` map: JS `Map` preserves key insertion order, modelled
as an association list in insertion order. -/
abbrev Groups := List (Int × List Entry)

/-- The day key of an entry (App.js 1059-1062). -/
def keyOf (off : Int) (p : Entry) : Int :=
  truncDay off p.2

/-- `groupsByDate.get(k)` as an association-list lookup. -/
def lookupGroup : Groups → Int → Option (List Entry)
  | [], _ => none
  | (k', b) :: rest, k => if k' = k then some b else lookupGroup rest k

/-- `groupsByDate.get(k) || []`. -/
def bucketAt (g : Groups) (k : Int) : List Entry :=
  (lookupGroup g k).getD []

/-- `if (!map.has(k)) map.set(k, []); map.get(k).push(p)` (App.js 1063-1065):
append to the bucket of `k`, creating it at the end of the map when new. -/
def pushEntry : Groups → Int → Entry → Groups
  | [], k, p => [(k, [p])]
  | (k', b) :: rest, k, p =>
    if k' = k then (k', b ++ [p]) :: rest else (k', b) :: pushEntry rest k p

/-- The tagging step of the loop body for one event: the entry pushed, or
`none` when the event is skipped by `if (!timeStr) continue`. -/
def tagEvent (parse : String → Int) (e : Event) : Option Entry :=
  (timeField e).map (fun s => (e, parse s))

/-- All entries the loop produces, in input order. -/
def tagged (parse : String → Int) (events : List Event) : List Entry :=
  events.filterMap (tagEvent parse)

/-- The grouping loop (App.js 1054-1066). -/
def groupLoop (parse : String → Int) (off : Int) :
    Groups → List Event → Groups
  | g, [] => g
  | g, e :: es =>
    match tagEvent parse e with
    | none => groupLoop parse off g es
    | some p => groupLoop parse off (pushEntry g (keyOf off p) p) es

/-- The grouped result consumed by the renderer (App.js 1049-1071):
`todayEvents = groupsByDate.get(today.getTime()) || []` and
`otherDayGroups = [...groupsByDate.entries()].filter(([key]) => key !== today.getTime())`. -/
def renderEventsGroups (parse : String → Int) (off now : Int)
    (events : List Event) : List Entry × Groups :=
  let todayKey := truncDay off now
  let g := groupLoop parse off [] events
  (bucketAt g todayKey, g.filter (fun p => p.1 != todayKey))

/-- The key list of the `groupsByDate` map, in insertion order. -/
def keysOf (g : Groups) : List Int := g.map Prod.fst

/-- Chronological (non-decreasing) check on a list of times/keys. -/
def isChron : List Int → Bool
  | [] => true
  | [_] => true
  | a :: b :: r => a ≤ b && isChron (b :: r)

/-- First-occurrence order of keys, starting from an initial key list:
the order in which a JS `Map` keeps keys as they are first inserted. -/
def firstKeysFrom (init : List Int) (ks : List Int) : List Int :=
  ks.foldl (fun acc k => if k ∈ acc then acc else acc ++ [k]) init

/-! ## Per-event rendering (App.js 1128-1164 and 1230-1261)

Both the today card and the other-day card read the same fields:
heading `base.name || base.title`, the parsed time, a venue line shown only
for a truthy `base.venue_name`, and the `base.url` link. -/

/-- Heading of an event card: `base.name || base.title` (App.js 1134, 1231). -/
def displayName (e : Event) : Option String :=
  jsOrStr e.name e.title

/-- Venue line: `base.venue_name && ("Venue: " + base.venue_name)`
(App.js 1141-1150, 1238-1247); the `venue` field is never read here. -/
def venueLine (e : Event) : Option String :=
  match e.venue_name with
  | some v => if v = "" then none else some ("Venue: " ++ v)
  | none => none

/-- The renderable content of one event card: heading, grouping timestamp
string, venue line, link target. -/
def renderCard (e : Event) :
    Option String × Option String × Option String × Option String :=
  (displayName e, timeField e, venueLine e, e.url)

/-- An event in the simulated/ticketing upstream shape:
`title`/`start_time`/`venue` carry the content. -/
def ticketShape (s t v : String) : Event :=
  { title := some s
    name := none
    date_time := none
    start_time := some t
    venue := some v
    venue_name := none
    url := none
    address := none
    distance_from_route_m := none
    capacity := none }

/-- The same event content in the live-feed upstream shape:
`name`/`date_time`/`venue_name`. -/
def liveShape (s t v : String) : Event :=
  { title := none
    name := some s
    date_time := some t
    start_time := none
    venue := none
    venue_name := some v
    url := none
    address := none
    distance_from_route_m := none
    capacity := none }

/-! ## Route-state lifecycle (App.js 263, 337; part_000 125-140)

React state is modelled with an explicit heap of route objects: `heap` is the
store (addresses are indices) and `routes` is the published array of
references. Publishing the result of a plan request (`setRoutes(mappedRoutes)`,
`setRoutes([routeObj])`) allocates fresh objects; `simulateEvent` copies the
array shallowly (`[...routes]`) and then writes through the first reference. -/

/-- The component state relevant to the route lifecycle. -/
structure AppState where
  heap : List RouteObj
  routes : List Nat
deriving DecidableEq, Repr

/-- Resolution of a plan request: the freshly built objects are appended to
the heap and the `routes` array is replaced by references to them only. -/
def publishRoutes (s : AppState) (objs : List RouteObj) : AppState :=
  { heap := s.heap ++ objs
    routes := (List.range objs.length).map (fun j => s.heap.length + j) }

/-- The hard-coded event pushed by `simulateEvent` (part_000 126-134);
`start_time` is `new Date().toISOString()`, passed in as `nowIso`. -/
def simulatedEvent (nowIso : String) : Event :=
  { title := some "Simulated Test Event 🚨"
    name := none
    date_time := none
    start_time := some nowIso
    venue := some "Test Arena"
    venue_name := none
    url := some "https://ticketmaster.com"
    address := some "123 Test Street"
    distance_from_route_m := some 420
    capacity := some 12000 }

/-- `if (!r.events_nearby) r.events_nearby = []; r.events_nearby.push(ev)`
(part_000 136-137): in-place append on the object. -/
def pushEvent (r : RouteObj) (ev : Event) : RouteObj :=
  { r with events_nearby := some ((r.events_nearby.getD []) ++ [ev]) }

/-- `simulateEvent` (part_000 125-140): `const updated = [...routes]` copies
the ARRAY but not the objects, so `updated[0]` aliases `routes[0]`; the push
mutates that shared object in place. `none` models the `TypeError` thrown
when `routes` is empty (`updated[0]` is `undefined`). -/
def simulateEvent (nowIso : String) (s : AppState) : Option AppState :=
  match s.routes.head? with
  | none => none
  | some i =>
    match s.heap.get? i with
    | none => none
    | some r =>
      some { heap := s.heap.set i (pushEvent r (simulatedEvent nowIso))
             routes := s.routes }

/-! ## Concrete sample data for the claim-level theorems and witnesses -/

/-- A weather snapshot whose `rain_1h` is present and equal to `0`. -/
def sampleWeather : Weather :=
  { temp := 5
    feels_like := 5
    humidity := 50
    wind_speed := 1
    rain_1h := some 0
    snow_1h := none
    weather_main := "Rain"
    weather_desc := "light rain"
    custom_alerts := none }

/-- A directions response whose only candidate has a first leg with
`duration.value = 0` seconds and `distance.value = 0` metres. -/
def zeroLegResp : DirResp :=
  { routes := some [ { summary := some "Main St"
                       legs := [ { duration := some 0, distance := some 0 } ]
                       overview_polyline_points := "" } ]
    origin_lat := 1
    origin_lon := 2
    destination_lat := 3
    destination_lon := 4
    weather := some sampleWeather
    events_nearby := none }

/-- A directions response carrying no `routes` field at all. -/
def emptyDirResp : DirResp :=
  { routes := none
    origin_lat := 0
    origin_lon := 0
    destination_lat := 0
    destination_lon := 0
    weather := none
    events_nearby := none }

/-- A ticketing-shape event holding only a display title and a
`start_time` string. -/
def startEvent (t : String) : Event :=
  { title := some t
    name := none
    date_time := none
    start_time := some t
    venue := none
    venue_name := none
    url := none
    address := none
    distance_from_route_m := none
    capacity := none }

/-- An event carrying no timestamp field in either spelling. -/
def noTimeEvent : Event :=
  { title := some "no time"
    name := none
    date_time := none
    start_time := none
    venue := none
    venue_name := none
    url := none
    address := none
    distance_from_route_m := none
    capacity := none }

/-- Parse table for the C2 counterexample: two future days and two
today-times, in milliseconds since the epoch. -/
def cex2Parse : String → Int := fun s =>
  if s = "d2" then 172800000
  else if s = "d1" then 86400000
  else if s = "t10" then 36000000
  else 32400000

/-- Event list for the C2 counterexample: day-after-tomorrow first, then
tomorrow, then today 10:00, then today 09:00 (deliberately out of order). -/
def cex2Events : List Event :=
  [startEvent "d2", startEvent "d1", startEvent "t10", startEvent "t9"]

/-- Parse table for the C9 witness: today 10:00 and tomorrow 09:00. -/
def w9Parse : String → Int := fun s =>
  if s = "T10" then 36000000 else 118800000

/-- Event list for the C9 witness: one event today, one tomorrow. -/
def w9Events : List Event :=
  [startEvent "T10", startEvent "T33"]

/-- A published state holding one route object at address 0. -/
def cex4State : AppState :=
  { heap := [emptyRouteObj], routes := [0] }

/-- The state `simulateEvent` produces from `cex4State`: same reference
array, but the object at address 0 has been mutated. -/
def cex4After : AppState :=
  { heap := [pushEvent emptyRouteObj (simulatedEvent "X")], routes := [0] }

/-- A transit response whose `error` field is set. -/
def cex5Resp : TransitResp :=
  { error := some "no transit available"
    transit := none
    walk_to_stop := none
    walk_to_destination := none
    weather := none
    events_nearby := none }

/-- A route with a start, two waypoint coordinates, and an end — the
four-marker example of the specification. -/
def markedRoute : RouteObj :=
  { emptyRouteObj with
    start_location := some ⟨0, 0⟩
    waypoint_locations := some [⟨1, 1⟩, ⟨2, 2⟩]
    end_location := some ⟨3, 3⟩ }

/-! ## Helper lemmas about the grouping loop -/

/-- Looking a key up after a push: the pushed key's bucket gains the entry at
its end, every other key is untouched. -/
theorem lookupGroup_pushEntry (g : Groups) (k : Int) (p : Entry) (k' : Int) :
    lookupGroup (pushEntry g k p) k'
      = if k' = k then some (bucketAt g k ++ [p]) else lookupGroup g k' := by
  induction g with
  | nil =>
    by_cases h : k' = k
    · subst h; simp [pushEntry, lookupGroup, bucketAt]
    · have h2 : ¬(k = k') := fun hh => h hh.symm
      simp [pushEntry, lookupGroup, bucketAt, h, h2]
  | cons hd tl ih =>
    obtain ⟨k₀, b₀⟩ := hd
    by_cases h0 : k₀ = k
    · subst h0
      by_cases h : k' = k₀
      · subst h; simp [pushEntry, lookupGroup, bucketAt]
      · have h2 : ¬(k₀ = k') := fun hh => h hh.symm
        simp [pushEntry, lookupGroup, h, h2]
    · by_cases h : k' = k₀
      · subst h
        simp [pushEntry, lookupGroup, bucketAt, h0]
      · have h2 : ¬(k₀ = k') := fun hh => h hh.symm
        simp [pushEntry, lookupGroup, h0, h2, ih, bucketAt]

theorem bucketAt_pushEntry (g : Groups) (k : Int) (p : Entry) (k' : Int) :
    bucketAt (pushEntry g k p) k'
      = if k' = k then bucketAt g k ++ [p] else bucketAt g k' := by
  rw [bucketAt, lookupGroup_pushEntry]
  by_cases h : k' = k <;> simp [h, bucketAt]

theorem tagged_cons_none (parse : String → Int) (e : Event) (es : List Event)
    (h : tagEvent parse e = none) :
    tagged parse (e :: es) = tagged parse es := by
  simp [tagged, List.filterMap_cons, h]

theorem tagged_cons_some (parse : String → Int) (e : Event) (es : List Event)
    (p : Entry) (h : tagEvent parse e = some p) :
    tagged parse (e :: es) = p :: tagged parse es := by
  simp [tagged, List.filterMap_cons, h]

/-- Each bucket of the final map is exactly the input-order filter of the
tagged entries whose day key matches, appended to whatever the accumulator
already held. -/
theorem bucketAt_groupLoop (parse : String → Int) (off : Int)
    (es : List Event) (g : Groups) (k : Int) :
    bucketAt (groupLoop parse off g es) k
      = bucketAt g k ++ (tagged parse es).filter (fun p => keyOf off p == k) := by
  induction es generalizing g with
  | nil => simp [groupLoop, tagged]
  | cons e es ih =>
    cases h : tagEvent parse e with
    | none => rw [groupLoop, h]; rw [ih, tagged_cons_none parse e es h]
    | some p =>
      rw [groupLoop, h]
      rw [ih, bucketAt_pushEntry, tagged_cons_some parse e es p h]
      by_cases hk : keyOf off p = k
      · simp [hk, List.filter_cons, List.append_assoc]
      · have hk2 : ¬(k = keyOf off p) := fun hh => hk hh.symm
        simp [hk, hk2, List.filter_cons]

theorem keysOf_pushEntry (g : Groups) (k : Int) (p : Entry) :
    keysOf (pushEntry g k p)
      = if k ∈ keysOf g then keysOf g else keysOf g ++ [k] := by
  induction g with
  | nil => simp [pushEntry, keysOf]
  | cons hd tl ih =>
    obtain ⟨k₀, b₀⟩ := hd
    by_cases h0 : k₀ = k
    · subst h0; simp [pushEntry, keysOf]
    · have h2 : ¬(k = k₀) := fun hh => h0 hh.symm
      simp [pushEntry, keysOf, h0, h2]
      rw [show (pushEntry tl k p).map Prod.fst = keysOf (pushEntry tl k p) from rfl, ih]
      by_cases hm : k ∈ List.map Prod.fst tl <;> simp [keysOf, List.mem_cons, h2, hm]

/-- The final key list is the first-occurrence order of the tagged entries'
day keys, continuing from the accumulator's keys — i.e. JS `Map` insertion
order. -/
theorem keysOf_groupLoop (parse : String → Int) (off : Int)
    (es : List Event) (g : Groups) :
    keysOf (groupLoop parse off g es)
      = firstKeysFrom (keysOf g) ((tagged parse es).map (keyOf off)) := by
  induction es generalizing g with
  | nil => simp [groupLoop, tagged, firstKeysFrom]
  | cons e es ih =>
    cases h : tagEvent parse e with
    | none => rw [groupLoop, h, ih, tagged_cons_none parse e es h]
    | some p =>
      rw [groupLoop, h, ih, tagged_cons_some parse e es p h]
      rw [keysOf_pushEntry]
      simp only [List.map_cons, firstKeysFrom, List.foldl_cons]

theorem keys_nodup_groupLoop (parse : String → Int) (off : Int)
    (es : List Event) (g : Groups) (h : (keysOf g).Nodup) :
    (keysOf (groupLoop parse off g es)).Nodup := by
  induction es generalizing g with
  | nil => simpa [groupLoop] using h
  | cons e es ih =>
    cases he : tagEvent parse e with
    | none => rw [groupLoop, he]; exact ih g h
    | some p =>
      rw [groupLoop, he]
      apply ih
      rw [keysOf_pushEntry]
      by_cases hm : keyOf off p ∈ keysOf g
      · simpa [hm] using h
      · simp [hm, List.nodup_append, h]

theorem mem_keys_groupLoop (parse : String → Int) (off : Int)
    (es : List Event) (g : Groups) (k : Int) :
    k ∈ keysOf (groupLoop parse off g es)
      ↔ k ∈ keysOf g ∨ k ∈ (tagged parse es).map (keyOf off) := by
  induction es generalizing g with
  | nil => simp [groupLoop, tagged]
  | cons e es ih =>
    cases he : tagEvent parse e with
    | none =>
      rw [groupLoop, he, ih, tagged_cons_none parse e es he]
    | some p =>
      rw [groupLoop, he, ih, tagged_cons_some parse e es p he]
      rw [keysOf_pushEntry]
      by_cases hm : keyOf off p ∈ keysOf g
      · simp only [hm, if_pos, List.map_cons, List.mem_cons]
        constructor
        · intro hh; tauto
        · rintro (hh | hh | hh)
          · tauto
          · subst hh; tauto
          · tauto
      · rw [if_neg hm]
        simp only [List.mem_append, List.map_cons, List.mem_cons, List.mem_singleton]
        tauto

/-- In a map with distinct keys, a member pair is found by lookup. -/
theorem lookupGroup_eq_of_mem (g : Groups) (h : (keysOf g).Nodup)
    (k : Int) (b : List Entry) (hm : (k, b) ∈ g) :
    lookupGroup g k = some b := by
  induction g with
  | nil => simp at hm
  | cons hd tl ih =>
    obtain ⟨k₀, b₀⟩ := hd
    rw [List.mem_cons] at hm
    rcases hm with heq | htl
    · rw [Prod.mk.injEq] at heq
      obtain ⟨h1, h2⟩ := heq
      subst h1; subst h2
      simp [lookupGroup]
    · have hnd : (keysOf tl).Nodup := by
        have hh := h
        simp only [keysOf, List.map_cons, List.nodup_cons] at hh
        exact hh.2
      have hk0 : k₀ ∉ keysOf tl := by
        have hh := h
        simp only [keysOf, List.map_cons, List.nodup_cons] at hh
        exact hh.1
      have hk : ¬(k₀ = k) := by
        intro hh; subst hh
        exact hk0 (by simpa [keysOf] using List.mem_map_of_mem Prod.fst htl)
      simp only [lookupGroup, if_neg hk]
      exact ih hnd htl

/-- Every tagged entry records an event that does carry a timestamp field,
paired with the parse of that field. -/
theorem mem_tagged (parse : String → Int) (es : List Event) (p : Entry)
    (h : p ∈ tagged parse es) :
    ∃ s, timeField p.1 = some s ∧ p.2 = parse s := by
  rw [tagged, List.mem_filterMap] at h
  obtain ⟨e, _, he⟩ := h
  rw [tagEvent, Option.map_eq_some'] at he
  obtain ⟨s, hs, hp⟩ := he
  exact ⟨s, by rw [← hp]; exact hs, by rw [← hp]⟩

/-- Bucket contents of the map built from an empty accumulator. -/
theorem finalBucket (parse : String → Int) (off : Int) (events : List Event)
    (k : Int) :
    bucketAt (groupLoop parse off [] events) k
      = (tagged parse events).filter (fun p => keyOf off p == k) := by
  rw [bucketAt_groupLoop]
  simp [bucketAt, lookupGroup]

theorem finalKeysNodup (parse : String → Int) (off : Int) (events : List Event) :
    (keysOf (groupLoop parse off [] events)).Nodup :=
  keys_nodup_groupLoop parse off events [] (by simp [keysOf])

/-- Every pair of the final map is keyed consistently with its contents. -/
theorem finalGroupsBucket (parse : String → Int) (off : Int)
    (events : List Event) (kb : Int × List Entry)
    (h : kb ∈ groupLoop parse off [] events) :
    kb.2 = (tagged parse events).filter (fun p => keyOf off p == kb.1) := by
  have hl := lookupGroup_eq_of_mem _ (finalKeysNodup parse off events) kb.1 kb.2 h
  have h2 := finalBucket parse off events kb.1
  rw [bucketAt, hl] at h2
  simpa using h2

/-- Filtering pairs on their key commutes with projecting the keys. -/
theorem map_fst_filter_ne (g : Groups) (k : Int) :
    (g.filter (fun p => p.1 != k)).map Prod.fst
      = (g.map Prod.fst).filter (fun x => x != k) := by
  induction g with
  | nil => rfl
  | cons hd tl ih =>
    by_cases hh : hd.1 != k <;> simp [List.filter_cons, hh, ih]

/-! ## Helper lemmas for the viewport fitter and the marker labels -/

/-- Folding the bounds extension over a family of empty paths is a no-op. -/
theorem foldl_empty_paths (paths : List (List Coordinate)) (b : Option Region)
    (h : ∀ p ∈ paths, p = []) :
    paths.foldl (fun b path => path.foldl extendBounds b) b = b := by
  induction paths generalizing b with
  | nil => rfl
  | cons hd tl ih =>
    have hhd : hd = [] := h hd (List.mem_cons_self hd tl)
    simp only [List.foldl_cons, hhd, List.foldl_nil]
    exact ih b (fun p hp => h p (List.mem_cons_of_mem hd hp))

/-- The label codes `65 + i` over an index range increase by exactly one at
each step. -/
theorem chain'_consec (n : ℕ) :
    List.Chain' (fun a b => b = a + 1) ((List.range n).map (fun i => 65 + i)) := by
  rw [List.chain'_map]
  cases n with
  | zero => simp
  | succ m =>
    rw [List.chain'_range_succ]
    intro k _
    omega

/-! ## Claim-level theorems -/

/-- C1: evaluating `fetchGoogleRoute` on a response whose first leg has
`duration.value = 0` and `distance.value = 0` shows that BOTH collapse to
`null` (the JS `|| null` treats `0` as falsy), contradicting the claim that
a `0` value is preserved as `0`; only the `rain_1h: 0` case survives,
because rendering uses `?? 0`. -/
theorem c1_zero_collapses_to_null :
    (fetchGoogleRoute (fun _ => []) "driving" zeroLegResp []).head?.map
        (fun r => (r.duration_min, r.distance_km)) = some (none, none)
    ∧ (fetchGoogleRoute (fun _ => []) "driving" zeroLegResp []).head?.bind
        (fun r => r.weather.map renderedRain) = some 0 := by
  constructor
  · simp [fetchGoogleRoute, mapDirRoute, jsOrNullQ, zeroLegResp, jsOrStr,
      List.mapM, List.mapM.loop]
  · simp [fetchGoogleRoute, mapDirRoute, jsOrNullQ, zeroLegResp, jsOrStr,
      renderedRain, sampleWeather, List.mapM, List.mapM.loop]

/-- C2 (counterexample): on a concrete event list given out of order, the
today bucket keeps its events in input order `10:00, 09:00` (not sorted), and
the upcoming-day keys iterate as `day 2, day 1` (not chronological), so the
grouping does NOT sort chronologically. -/
theorem c2_counterexample :
    isChron (((renderEventsGroups cex2Parse 0 28800000 cex2Events).1).map Prod.snd)
        = false
    ∧ isChron ((renderEventsGroups cex2Parse 0 28800000 cex2Events).2.map Prod.fst)
        = false := by
  decide

/-- C2 (amended): grouping does not sort. The today bucket and every day
bucket list their events in INPUT order (each bucket is an order-preserving
filter of the tagged input), and the upcoming bucket keys iterate in
first-appearance order of the events' days — `Map` insertion order — not in
chronological order. -/
theorem c2_groups_keep_input_order (parse : String → Int) (off now : Int)
    (events : List Event) :
    (renderEventsGroups parse off now events).1
        = (tagged parse events).filter (fun p => keyOf off p == truncDay off now)
    ∧ (∀ kb ∈ (renderEventsGroups parse off now events).2,
        kb.2 = (tagged parse events).filter (fun p => keyOf off p == kb.1))
    ∧ (renderEventsGroups parse off now events).2.map Prod.fst
        = (firstKeysFrom [] ((tagged parse events).map (keyOf off))).filter
            (fun x => x != truncDay off now) := by
  refine ⟨finalBucket parse off events (truncDay off now), ?_, ?_⟩
  · intro kb hkb
    simp only [renderEventsGroups, List.mem_filter] at hkb
    exact finalGroupsBucket parse off events kb hkb.1
  · have h1 : (renderEventsGroups parse off now events).2.map Prod.fst
        = (keysOf (groupLoop parse off [] events)).filter
            (fun x => x != truncDay off now) := by
      simp only [renderEventsGroups]
      exact map_fst_filter_ne (groupLoop parse off [] events) (truncDay off now)
    rw [h1, keysOf_groupLoop]
    rfl

/-- C2 (witness): the amended theorem instantiated on the counterexample
data, reading off the day-2 bucket. -/
theorem c2_groups_keep_input_order_witness :
    [(startEvent "d2", (172800000 : Int))]
      = (tagged cex2Parse cex2Events).filter
          (fun p => keyOf 0 p == (172800000 : Int)) :=
  (c2_groups_keep_input_order cex2Parse 0 28800000 cex2Events).2.1
    (172800000, [(startEvent "d2", 172800000)]) (by decide)

/-- C3 (counterexample): two routes with no geometry decode to `[[], []]`,
and the fit effect does NOT signal no-geometry there: the guard only checks
`decodedRoutes.length === 0`, so `fitBounds` is invoked on an empty bounds
instead of keeping the prior viewport. -/
theorem c3_counterexample :
    decodedRoutes (fun _ => []) [emptyRouteObj, emptyRouteObj] = [[], []]
    ∧ fitViewport [[], []] ≠ none
    ∧ fitViewport [[], []] = some none := by
  refine ⟨by decide, by decide, by decide⟩

/-- C3 (amended): the fitter skips (keeping the prior viewport) exactly when
the path LIST is empty; a non-empty list whose paths are all empty still
invokes `fitBounds`, with an empty bounds. On real geometry the minimal
covering region is produced, e.g. the specification's two-path example. -/
theorem c3_fit_skips_only_on_empty_list :
    (∀ paths, fitViewport paths = none ↔ paths = [])
    ∧ (∀ paths, paths ≠ [] → (∀ p ∈ paths, p = ([] : List Coordinate)) →
        fitViewport paths = some none)
    ∧ fitViewport [[⟨0, 0⟩, ⟨1, 1⟩], [⟨-1, 2⟩]] = some (some ⟨-1, 1, 0, 2⟩) := by
  refine ⟨?_, ?_, by decide⟩
  · intro paths
    rw [fitViewport]
    by_cases h : paths.length = 0
    · simp [h, List.length_eq_zero.mp h]
    · simp [h]
      intro hh
      exact h (by simp [hh])
  · intro paths hne hall
    rw [fitViewport, if_neg (by simpa using fun hh => hne (List.length_eq_zero.mp hh)),
      foldl_empty_paths paths none hall]

/-- C3 (witness): the amended theorem applied to `[[], []]`. -/
theorem c3_fit_skips_only_on_empty_list_witness :
    fitViewport [[], []] = some none :=
  c3_fit_skips_only_on_empty_list.2.1 [[], []] (by decide) (by decide)

/-- C4 (counterexample): starting from a published state with one route at
address 0, `simulateEvent` keeps the very same reference array `[0]` but the
object stored at address 0 is no longer the one that was published — a
previously published route object IS mutated in place, refuting the claim
that no operation ever mutates one. -/
theorem c4_counterexample :
    (simulateEvent "X" cex4State).map AppState.routes = some [0]
    ∧ ((simulateEvent "X" cex4State).bind (fun s => s.heap.get? 0))
        ≠ some emptyRouteObj := by
  refine ⟨by decide, by decide⟩

/-- C4 (amended): plan-request resolutions do replace the route set
wholesale with freshly allocated objects (existing heap cells are untouched
and the new array references only fresh addresses); but `simulateEvent` is
an exception to "new route objects": it shallow-copies the array and mutates
the first published route object in place, appending the simulated event to
its `events_nearby`. -/
theorem c4_replacement_except_simulateEvent (s : AppState)
    (objs : List RouteObj) (iso : String) (s' : AppState) :
    ((publishRoutes s objs).heap.take s.heap.length = s.heap
      ∧ ∀ i ∈ (publishRoutes s objs).routes, s.heap.length ≤ i)
    ∧ (simulateEvent iso s = some s' →
        s'.routes = s.routes
        ∧ ∃ i r, s.routes.head? = some i ∧ s.heap.get? i = some r
            ∧ s'.heap = s.heap.set i (pushEvent r (simulatedEvent iso))) := by
  refine ⟨⟨?_, ?_⟩, ?_⟩
  · rw [publishRoutes]
    simp [List.take_left]
  · intro i hi
    rw [publishRoutes] at hi
    simp only [List.mem_map, List.mem_range] at hi
    obtain ⟨j, _, hj⟩ := hi
    omega
  · intro hsim
    cases hh : s.routes.head? with
    | none =>
      simp only [simulateEvent, hh] at hsim
      exact Option.noConfusion hsim
    | some i =>
      cases hr : s.heap.get? i with
      | none =>
        simp only [simulateEvent, hh, hr] at hsim
        exact Option.noConfusion hsim
      | some r =>
        simp only [simulateEvent, hh, hr, Option.some.injEq] at hsim
        refine ⟨by rw [← hsim], i, r, rfl, hr, by rw [← hsim]⟩

/-- C4 (witness): the amended theorem instantiated on the concrete published
state, with the mutation hypothesis discharged by evaluation. -/
theorem c4_replacement_except_simulateEvent_witness :
    cex4After.routes = cex4State.routes
    ∧ ∃ i r, cex4State.routes.head? = some i ∧ cex4State.heap.get? i = some r
        ∧ cex4After.heap = cex4State.heap.set i (pushEvent r (simulatedEvent "X")) :=
  (c4_replacement_except_simulateEvent cex4State [] "X" cex4After).2 (by decide)

/-- C5: a truthy `error` field in the transit-planner response makes the
pipeline fail with the error message (surfaced to the user via `alert`, the
route state staying cleared) — a condition distinct from any successful
result, which always carries exactly one route object and is never an empty
route list. -/
theorem c5_upstream_error_is_distinct (o d : LatLon) (data : TransitResp)
    (e : String) :
    (data.error = some e → e ≠ "" → fetchTransitRoute o d data = .error e)
    ∧ (fetchTransitRoute o d data ≠ .ok [])
    ∧ ((data.error = none ∨ data.error = some "") →
        fetchTransitRoute o d data = .ok [mkTransitRoute o d data]) := by
  refine ⟨?_, ?_, ?_⟩
  · intro h he
    simp only [fetchTransitRoute, h]
    rw [if_neg he]
  · rw [fetchTransitRoute]
    cases data.error with
    | none => simp
    | some e' =>
      by_cases he : e' = "" <;> simp [he]
  · rintro (h | h)
    · rw [fetchTransitRoute, h]
    · simp [fetchTransitRoute, h]

/-- C5 (witness): a concrete erroring response is surfaced verbatim. -/
theorem c5_upstream_error_is_distinct_witness :
    fetchTransitRoute ⟨0, 0⟩ ⟨1, 1⟩ cex5Resp = .error "no transit available" :=
  (c5_upstream_error_is_distinct ⟨0, 0⟩ ⟨1, 1⟩ cex5Resp "no transit available").1
    rfl (by decide)

/-- C6: the impact level is `"high"` when any alert has severity `"high"`,
else `"medium"` when any has `"medium"`, else `"low"` — including the empty
list; alerts with unrecognized severity count toward neither tier and their
card background totally falls back to the neutral colour, so rendering never
crashes. -/
theorem c6_severity_resolution (l : List Alert) (a : Alert) :
    ((∃ x ∈ l, x.severity = "high") → impactLevel l = "high")
    ∧ ((∀ x ∈ l, x.severity ≠ "high") → (∃ x ∈ l, x.severity = "medium") →
        impactLevel l = "medium")
    ∧ ((∀ x ∈ l, x.severity ≠ "high" ∧ x.severity ≠ "medium") →
        impactLevel l = "low")
    ∧ impactLevel [] = "low"
    ∧ (a.severity ≠ "high" → a.severity ≠ "medium" → a.severity ≠ "low" →
        alertBgLight a = "#f5f5f5" ∧ impactLevel [a] = "low") := by
  refine ⟨?_, ?_, ?_, by rfl, ?_⟩
  · intro h
    rw [impactLevel, if_pos]
    rw [List.any_eq_true]
    obtain ⟨x, hx, hs⟩ := h
    exact ⟨x, hx, by simp [hs]⟩
  · intro hno h
    rw [impactLevel, if_neg, if_pos]
    · rw [List.any_eq_true]
      obtain ⟨x, hx, hs⟩ := h
      exact ⟨x, hx, by simp [hs]⟩
    · rw [List.any_eq_true]
      rintro ⟨x, hx, hs⟩
      exact hno x hx (by simpa using hs)
  · intro h
    rw [impactLevel, if_neg, if_neg]
    · rw [List.any_eq_true]
      rintro ⟨x, hx, hs⟩
      exact (h x hx).2 (by simpa using hs)
    · rw [List.any_eq_true]
      rintro ⟨x, hx, hs⟩
      exact (h x hx).1 (by simpa using hs)
  · intro h1 h2 h3
    constructor
    · rw [alertBgLight, severityColorsLight, if_neg h1, if_neg h2, if_neg h3]
      rfl
    · rw [impactLevel, if_neg (by simp [h1]), if_neg (by simp [h2])]

/-- C6 (witness): the specification's own test vector and an
unrecognized-severity alert, settled through the theorem. -/
theorem c6_severity_resolution_witness :
    impactLevel [⟨"a", "m", "low"⟩, ⟨"b", "m", "high"⟩, ⟨"c", "m", "medium"⟩]
        = "high"
    ∧ impactLevel [⟨"a", "m", "low"⟩, ⟨"c", "m", "medium"⟩] = "medium"
    ∧ impactLevel [] = "low"
    ∧ (alertBgLight ⟨"x", "y", "weird"⟩ = "#f5f5f5"
        ∧ impactLevel [⟨"x", "y", "weird"⟩] = "low") :=
  ⟨(c6_severity_resolution
      [⟨"a", "m", "low"⟩, ⟨"b", "m", "high"⟩, ⟨"c", "m", "medium"⟩]
      ⟨"x", "y", "weird"⟩).1 (by decide),
   (c6_severity_resolution [⟨"a", "m", "low"⟩, ⟨"c", "m", "medium"⟩]
      ⟨"x", "y", "weird"⟩).2.1 (by decide) (by decide),
   (c6_severity_resolution [] ⟨"x", "y", "weird"⟩).2.2.2.1,
   (c6_severity_resolution [] ⟨"x", "y", "weird"⟩).2.2.2.2
      (by decide) (by decide) (by decide)⟩

/-- C7: whenever the directions response has no `routes` field or an empty
`routes` list, the published route state becomes `[]` — regardless of what
was displayed before. -/
theorem c7_empty_routes_clears_state (decode : String → List Coordinate)
    (mode : String) (data : DirResp) (prev : List RouteObj) :
    mode ≠ "transit" → (data.routes = none ∨ data.routes = some []) →
    fetchGoogleRoute decode mode data prev = [] := by
  intro hm hr
  rw [fetchGoogleRoute, if_neg hm]
  rcases hr with h | h
  · rw [h]
  · rw [h]; simp

/-- C7 (witness): a routes-less response clears a non-empty previous state. -/
theorem c7_empty_routes_clears_state_witness :
    fetchGoogleRoute (fun _ => []) "driving" emptyDirResp [emptyRouteObj] = [] :=
  c7_empty_routes_clears_state (fun _ => []) "driving" emptyDirResp
    [emptyRouteObj] (by decide) (Or.inl rfl)

/-- C8 (counterexample): one and the same event content supplied in the
ticketing shape (`title`/`start_time`/`venue`) and in the live-feed shape
(`name`/`date_time`/`venue_name`) does NOT render identically: the venue line
is read only from `venue_name`, so the ticketing-shape event loses its venue. -/
theorem c8_counterexample :
    renderCard (ticketShape "Show" "2025-06-01T20:00:00" "Test Arena")
      ≠ renderCard (liveShape "Show" "2025-06-01T20:00:00" "Test Arena") := by
  decide

/-- C8 (amended): `title|name` and `start_time|date_time` are genuine
synonyms — either spelling yields the same heading and the same grouping
timestamp — but the venue is NOT: only `venue_name` produces a venue line,
and an event carrying only `venue` renders without one. -/
theorem c8_synonyms_except_venue (s t v : String)
    (hs : s ≠ "") (ht : t ≠ "") (hv : v ≠ "") :
    displayName (ticketShape s t v) = some s
    ∧ displayName (liveShape s t v) = some s
    ∧ timeField (ticketShape s t v) = some t
    ∧ timeField (liveShape s t v) = some t
    ∧ venueLine (ticketShape s t v) = none
    ∧ venueLine (liveShape s t v) = some ("Venue: " ++ v) := by
  refine ⟨?_, ?_, ?_, ?_, ?_, ?_⟩ <;>
    simp [displayName, jsOrStr, ticketShape, liveShape, timeField, venueLine,
      hs, ht, hv]

/-- C8 (witness): the amended theorem at concrete content. -/
theorem c8_synonyms_except_venue_witness :
    displayName (ticketShape "Show" "T" "Arena") = some "Show"
    ∧ displayName (liveShape "Show" "T" "Arena") = some "Show"
    ∧ timeField (ticketShape "Show" "T" "Arena") = some "T"
    ∧ timeField (liveShape "Show" "T" "Arena") = some "T"
    ∧ venueLine (ticketShape "Show" "T" "Arena") = none
    ∧ venueLine (liveShape "Show" "T" "Arena") = some ("Venue: " ++ "Arena") :=
  c8_synonyms_except_venue "Show" "T" "Arena" (by decide) (by decide) (by decide)

/-- C9: for every parse function, timezone offset, current time and event
list, the grouping pass places each tagged event (an event carrying a
timestamp in either spelling) into exactly one bucket: the today bucket is
exactly the tagged entries whose truncated day equals the current day, every
upcoming bucket is exactly the tagged entries of its own (distinct, non-today,
non-empty) day, the day keys are pairwise distinct, every non-today tagged
entry's day has a bucket, and an event lacking both timestamp fields appears
in no bucket at all — and the (total) pass never crashes. -/
theorem c9_grouping_partitions (parse : String → Int) (off now : Int)
    (events : List Event) :
    (renderEventsGroups parse off now events).1
        = (tagged parse events).filter (fun p => keyOf off p == truncDay off now)
    ∧ (∀ kb ∈ (renderEventsGroups parse off now events).2,
        kb.1 ≠ truncDay off now
        ∧ kb.2 = (tagged parse events).filter (fun p => keyOf off p == kb.1)
        ∧ kb.2 ≠ [])
    ∧ ((renderEventsGroups parse off now events).2.map Prod.fst).Nodup
    ∧ (∀ p ∈ tagged parse events, keyOf off p ≠ truncDay off now →
        keyOf off p ∈ (renderEventsGroups parse off now events).2.map Prod.fst)
    ∧ (∀ (e : Event) (t : Int), timeField e = none →
        (e, t) ∉ (renderEventsGroups parse off now events).1
        ∧ ∀ kb ∈ (renderEventsGroups parse off now events).2, (e, t) ∉ kb.2) := by
  refine ⟨finalBucket parse off events (truncDay off now), ?_, ?_, ?_, ?_⟩
  · intro kb hkb
    simp only [renderEventsGroups, List.mem_filter, bne_iff_ne, ne_eq] at hkb
    obtain ⟨hg, hne⟩ := hkb
    refine ⟨hne, finalGroupsBucket parse off events kb hg, ?_⟩
    have hkmem : kb.1 ∈ keysOf (groupLoop parse off [] events) := by
      simp only [keysOf, List.mem_map]
      exact ⟨kb, hg, rfl⟩
    rw [mem_keys_groupLoop] at hkmem
    rcases hkmem with hh | hh
    · simp [keysOf] at hh
    · rw [List.mem_map] at hh
      obtain ⟨p, hp, hpk⟩ := hh
      have hpf : p ∈ (tagged parse events).filter (fun p => keyOf off p == kb.1) :=
        List.mem_filter.mpr ⟨hp, by simp [hpk]⟩
      rw [← finalGroupsBucket parse off events kb hg] at hpf
      exact List.ne_nil_of_mem hpf
  · have h1 : (renderEventsGroups parse off now events).2.map Prod.fst
        = (keysOf (groupLoop parse off [] events)).filter
            (fun x => x != truncDay off now) := by
      simp only [renderEventsGroups]
      exact map_fst_filter_ne (groupLoop parse off [] events) (truncDay off now)
    rw [h1]
    exact List.Nodup.filter _ (finalKeysNodup parse off events)
  · intro p hp hpk
    have hkmem : keyOf off p ∈ keysOf (groupLoop parse off [] events) := by
      rw [mem_keys_groupLoop]
      exact Or.inr (List.mem_map_of_mem _ hp)
    simp only [keysOf, List.mem_map] at hkmem
    obtain ⟨kb, hkb, hfst⟩ := hkmem
    simp only [renderEventsGroups]
    have hfilter : kb ∈ (groupLoop parse off [] events).filter
        (fun q => q.1 != truncDay off now) :=
      List.mem_filter.mpr ⟨hkb, by simp [bne_iff_ne, hfst, hpk]⟩
    rw [← hfst]
    exact List.mem_map_of_mem Prod.fst hfilter
  · intro e t het
    constructor
    · intro hmem
      rw [show (renderEventsGroups parse off now events).1
            = bucketAt (groupLoop parse off [] events) (truncDay off now) from rfl,
        finalBucket] at hmem
      obtain ⟨s, hs, _⟩ := mem_tagged parse events (e, t) (List.mem_filter.mp hmem).1
      simp [het] at hs
    · intro kb hkb hmem
      simp only [renderEventsGroups, List.mem_filter] at hkb
      rw [finalGroupsBucket parse off events kb hkb.1] at hmem
      obtain ⟨s, hs, _⟩ := mem_tagged parse events (e, t) (List.mem_filter.mp hmem).1
      simp [het] at hs

/-- C9 (witness): the specification's example — one event today at 10:00,
one tomorrow at 09:00, now 08:00 — has tomorrow's day among the upcoming
keys, and an event with no timestamp lands in no bucket. -/
theorem c9_grouping_partitions_witness :
    keyOf 0 (startEvent "T33", (118800000 : Int))
        ∈ (renderEventsGroups w9Parse 0 28800000 w9Events).2.map Prod.fst
    ∧ (noTimeEvent, (0 : Int)) ∉ (renderEventsGroups w9Parse 0 28800000 w9Events).1 :=
  ⟨(c9_grouping_partitions w9Parse 0 28800000 w9Events).2.2.2.1
      (startEvent "T33", 118800000) (by decide) (by decide),
   ((c9_grouping_partitions w9Parse 0 28800000 w9Events).2.2.2.2
      noTimeEvent 0 rfl).1⟩

/-- C10: markers come from the first route only — start location if present,
then the waypoint locations in order, then the end location if present; an
empty route set yields no markers; and label codes are consecutive starting
at 65 (the code of the character A), assigned purely by position. -/
theorem c10_markers_from_first_route (r : RouteObj) (rest routes : List RouteObj) :
    buildMarkers [] = []
    ∧ buildMarkers (r :: rest)
        = optToList r.start_location ++ r.waypoint_locations.getD []
            ++ optToList r.end_location
    ∧ buildMarkers (r :: rest) = buildMarkers [r]
    ∧ (markerLabelCodes routes).length = (buildMarkers routes).length
    ∧ List.Chain' (fun a b => b = a + 1) (markerLabelCodes routes)
    ∧ (buildMarkers routes ≠ [] → (markerLabelCodes routes).head? = some 65) := by
  refine ⟨rfl, rfl, rfl, by simp [markerLabelCodes], chain'_consec _, ?_⟩
  intro h
  rw [markerLabelCodes]
  cases hb : (buildMarkers routes).length with
  | zero => exact absurd (List.length_eq_zero.mp hb) h
  | succ m => simp [List.range_succ_eq_map]

/-- C10 (witness): the specification's four-marker route. -/
theorem c10_markers_from_first_route_witness :
    buildMarkers [markedRoute] = [⟨0, 0⟩, ⟨1, 1⟩, ⟨2, 2⟩, ⟨3, 3⟩]
    ∧ (markerLabelCodes [markedRoute]).head? = some 65 :=
  ⟨by decide,
   (c10_markers_from_first_route markedRoute [] [markedRoute]).2.2.2.2.2
     (by decide)⟩

end BoulderMove
